import Mathlib

/-!
Shallow embedding of the mcp-knowledge-base session/credential registry,
request router and tool dispatch layer.

Sources embedded:
- the Cloudflare Worker MCP handler (handleMcpRequest), with its transports
  and sessionCredentials maps;
- the Express /mcp route of src/mcp-server.js with its transports object;
- the shared tool definitions (getSessionCredentials and the per-tool
  try/catch wrappers);
- the tool collaborators delete-documents.js, get-document.js and the
  deleteDocument function shipped next to upload-document-node.js.

JavaScript strings that may be absent (header lookups, process.env reads)
are modelled as Option String, with JS truthiness: undefined/null and the
empty string are falsy. JS Map objects are modelled as insertion-ordered
association lists whose set operation overwrites in place.
-/

namespace MCPKB

/-- A JS string value that may be undefined/null (header or env lookup). -/
abbrev JsStr := Option String

/-- JS truthiness of a possibly-absent string: undefined, null and the
empty string are falsy. -/
def truthy : JsStr → Bool
  | none => false
  | some s => !(s == "")

/-- The JS expression a || b on possibly-absent strings. -/
def jsOr (a b : JsStr) : JsStr := if truthy a then a else b

/-- A JS Map with string keys: insertion-ordered association list.
Map.set overwrites the value in place when the key exists. -/
abbrev JsMap (α : Type) : Type := List (String × α)

namespace JsMap

/-- Map.prototype.get: first binding of the key, if any. -/
def get? {α : Type} : JsMap α → String → Option α
  | [], _ => none
  | (k2, v) :: rest, k => if k2 == k then some v else get? rest k

/-- Map.prototype.has. -/
def hasKey {α : Type} (m : JsMap α) (k : String) : Bool :=
  (m.get? k).isSome

/-- Map.prototype.set: overwrite in place when the key exists, else append. -/
def set {α : Type} : JsMap α → String → α → JsMap α
  | [], k, v => [(k, v)]
  | (k2, v2) :: rest, k, v =>
    if k2 == k then (k2, v) :: rest else (k2, v2) :: set rest k v

/-- The keys of the map, in insertion order. -/
def keys {α : Type} (m : JsMap α) : List String := m.map Prod.fst

theorem get?_set_self {α : Type} (m : JsMap α) (k : String) (v : α) :
    (m.set k v).get? k = some v := by
  induction m with
  | nil => simp [set, get?]
  | cons p rest ih =>
    by_cases h : p.1 = k
    · simp [set, get?, h]
    · simp only [set, get?]
      rw [if_neg (by simpa using h)]
      simpa [get?, h] using ih

theorem get?_set_ne {α : Type} (m : JsMap α) (k k2 : String) (v : α)
    (h : k ≠ k2) : (m.set k v).get? k2 = m.get? k2 := by
  induction m with
  | nil => simp [set, get?, h]
  | cons p rest ih =>
    by_cases h2 : p.1 = k
    · subst h2
      simp only [set, get?, beq_self_eq_true, if_true]
      rw [if_neg (by simpa using h), if_neg (by simpa using h)]
    · simp only [set, get?]
      rw [if_neg (by simpa using h2)]
      by_cases h3 : p.1 = k2
      · simp [get?, h3]
      · simp only [get?]
        rw [if_neg (by simpa using h3), if_neg (by simpa using h3)]
        exact ih

theorem mem_keys_iff_get? {α : Type} (m : JsMap α) (k : String) :
    k ∈ m.keys ↔ (m.get? k).isSome := by
  induction m with
  | nil => simp [keys, get?]
  | cons p rest ih =>
    by_cases h : p.1 = k
    · simp [keys, get?, h]
    · simp only [keys, List.map_cons, List.mem_cons, get?]
      rw [if_neg (by simpa using h)]
      simpa [keys, h, Ne.symm h] using ih

theorem keys_set_mem {α : Type} (m : JsMap α) (k : String) (v : α)
    (h : k ∈ m.keys) : (m.set k v).keys = m.keys := by
  induction m with
  | nil => simp [keys] at h
  | cons p rest ih =>
    by_cases h2 : p.1 = k
    · simp [set, keys, h2]
    · simp only [keys, List.map_cons, List.mem_cons] at h
      rcases h with h | h
      · exact absurd h.symm h2
      · simp only [set, keys]
        rw [if_neg (by simpa using h2)]
        simpa [keys] using congrArg (fun l => p.1 :: l) (ih h)

theorem keys_set_not_mem {α : Type} (m : JsMap α) (k : String) (v : α)
    (h : k ∉ m.keys) : (m.set k v).keys = m.keys ++ [k] := by
  induction m with
  | nil => simp [set, keys]
  | cons p rest ih =>
    simp only [keys, List.map_cons, List.mem_cons, not_or] at h
    simp only [set, keys]
    rw [if_neg (by simpa using (Ne.symm h.1))]
    simpa [keys] using congrArg (fun l => p.1 :: l) (ih h.2)

theorem nodup_keys_set {α : Type} (m : JsMap α) (k : String) (v : α)
    (h : m.keys.Nodup) : (m.set k v).keys.Nodup := by
  by_cases hm : k ∈ m.keys
  · rwa [keys_set_mem m k v hm]
  · rw [keys_set_not_mem m k v hm]
    simpa [List.nodup_append] using ⟨h, hm⟩

theorem mem_keys_set {α : Type} (m : JsMap α) (k k2 : String) (v : α)
    (h : k2 ∈ (m.set k v).keys) : k2 ∈ m.keys ∨ k2 = k := by
  by_cases hm : k ∈ m.keys
  · rw [keys_set_mem m k v hm] at h; exact Or.inl h
  · rw [keys_set_not_mem m k v hm] at h
    simpa using h

theorem mem_keys_set_of_mem {α : Type} (m : JsMap α) (k k2 : String) (v : α)
    (h : k2 ∈ m.keys) : k2 ∈ (m.set k v).keys := by
  by_cases hm : k ∈ m.keys
  · rwa [keys_set_mem m k v hm]
  · rw [keys_set_not_mem m k v hm]; exact List.mem_append_left _ h

end JsMap

/-- The credential triple extracted per request. Fields keep the JS shape
where a value can be absent. -/
structure Credentials where
  supabaseUrl : JsStr
  supabaseKey : JsStr
  openaiKey : JsStr
deriving DecidableEq, Repr

/-- The environment bindings read by the Worker handler and by
process.env in the shared tool definitions. -/
structure Env where
  SUPABASE_URL : JsStr
  SUPABASE_SERVICE_KEY : JsStr
  OPENAI_API_KEY : JsStr
deriving DecidableEq, Repr

/-- The request headers read by the Worker handler. -/
structure RequestHeaders where
  mcpSessionId : JsStr
  xSupabaseUrl : JsStr
  xSupabaseKey : JsStr
  xOpenaiKey : JsStr
deriving DecidableEq, Repr

/-- Credential extraction of the Worker handler:
header value, falling back to the environment via the JS || operator. -/
def resolveCredentials (h : RequestHeaders) (env : Env) : Credentials where
  supabaseUrl := jsOr h.xSupabaseUrl env.SUPABASE_URL
  supabaseKey := jsOr h.xSupabaseKey env.SUPABASE_SERVICE_KEY
  openaiKey := jsOr h.xOpenaiKey env.OPENAI_API_KEY

/-- The missing array built by the Worker handler when validation fails:
one entry per falsy credential field, in source order. -/
def missingList (c : Credentials) : List String :=
  (if truthy c.supabaseUrl then [] else ["x-supabase-url"]) ++
  (if truthy c.supabaseKey then [] else ["x-supabase-key"]) ++
  (if truthy c.openaiKey then [] else ["x-openai-key"])

/-- The validation condition of the Worker handler: all three resolved
fields truthy (the source tests the negation with !a || !b || !c). -/
def credentialsValid (c : Credentials) : Bool :=
  truthy c.supabaseUrl && truthy c.supabaseKey && truthy c.openaiKey

theorem truthy_jsOr (a b : JsStr) : truthy (jsOr a b) = (truthy a || truthy b) := by
  unfold jsOr
  cases h : truthy a <;> simp [h]

/-! The Cloudflare Worker MCP handler (handleMcpRequest) and its two
module-level maps. A transport object is identified by a numeric handle;
its mutable extra slot carries the credentials the handler attaches. -/

/-- A StreamableHTTPServerTransport object as the Worker sees it:
an opaque handle plus the mutable extra.credentials slot the Worker sets. -/
structure Transport where
  handleId : Nat
  extraCredentials : Option Credentials
deriving DecidableEq, Repr

/-- The Worker module state: the transports map, the sessionCredentials
map, and a counter supplying the identity of the next transport object
constructed by new StreamableHTTPServerTransport. -/
structure WorkerState where
  transports : JsMap Transport
  sessionCredentials : JsMap Credentials
  nextHandle : Nat
deriving DecidableEq, Repr

/-- The JSON body shapes the Worker handler can produce. -/
inductive RespBody
  | missingCreds (missing : List String)
  | transportData
  | invalidRequest
deriving DecidableEq, Repr

/-- The Response the Worker handler returns: status, body, and the
Mcp-Session-Id header when set. -/
structure WorkerResponse where
  status : Nat
  body : RespBody
  mcpSessionId : JsStr
deriving DecidableEq, Repr

/-- What a tool handler observes when transport.handleRequest is reached:
the identity of the transport, the extra slot contents, the session id the
SDK reports, and the live contents of the sessionCredentials map at call
time (the Worker passes the map itself by reference through extra). -/
structure ToolCallContext where
  transportId : Nat
  extraCredentials : Option Credentials
  extraSessionId : JsStr
  sessionCredsMapAtCall : JsMap Credentials
deriving DecidableEq, Repr

/-- Result of one Worker request: the HTTP response, the new module state,
and the tool-call context when transport.handleRequest was invoked
(none when the request was rejected before reaching a transport). -/
structure WorkerOutcome where
  response : WorkerResponse
  state : WorkerState
  dispatched : Option ToolCallContext
deriving DecidableEq, Repr

/-- One inbound Worker request: its headers and whether the SDK predicate
isInitializeRequest holds of the parsed JSON body. -/
structure WorkerRequest where
  headers : RequestHeaders
  isInitialize : Bool
deriving DecidableEq, Repr

/-- Mirrors handleMcpRequest of the Worker entry file. The control flow,
in source order: extract credentials (header over env), reject with 401
naming the missing fields when any is falsy, store the credentials under
the session id whenever one is present, reuse a registered transport,
else create a transport for a session-less initialize request under a
freshly generated UUID (passed in as newUuid), else reject with 400. -/
def handleMcpRequest (env : Env) (newUuid : String) (st : WorkerState)
    (req : WorkerRequest) : WorkerOutcome :=
  let sessionId := req.headers.mcpSessionId
  let credentials := resolveCredentials req.headers env
  if credentialsValid credentials = false then
    { response := ⟨401, .missingCreds (missingList credentials), none⟩
      state := st
      dispatched := none }
  else
    let st1 : WorkerState :=
      if truthy sessionId then
        { st with sessionCredentials :=
            st.sessionCredentials.set (sessionId.getD "") credentials }
      else st
    match (if truthy sessionId then st1.transports.get? (sessionId.getD "") else none) with
    | some t =>
      let t1 : Transport := { t with extraCredentials := some credentials }
      let st2 : WorkerState :=
        { st1 with transports := st1.transports.set (sessionId.getD "") t1 }
      { response := ⟨200, .transportData, sessionId⟩
        state := st2
        dispatched := some ⟨t.handleId, some credentials, sessionId, st2.sessionCredentials⟩ }
    | none =>
      if (!(truthy sessionId) && req.isInitialize) then
        let transport : Transport := ⟨st1.nextHandle, some credentials⟩
        let st2 : WorkerState :=
          { transports := st1.transports.set newUuid transport
            sessionCredentials := st1.sessionCredentials.set newUuid credentials
            nextHandle := st1.nextHandle + 1 }
        { response := ⟨200, .transportData, some newUuid⟩
          state := st2
          dispatched := some ⟨transport.handleId, some credentials, some newUuid, st2.sessionCredentials⟩ }
      else
        { response := ⟨400, .invalidRequest, none⟩
          state := st1
          dispatched := none }

/-! The Express /mcp route of src/mcp-server.js. It keeps a transports
object (used as a string-keyed map) and no credential handling at all. -/

/-- Module state of the Express server: the transports object and the
identity counter for newly constructed transports. -/
structure ExpressState where
  transports : JsMap Nat
  nextHandle : Nat
deriving DecidableEq, Repr

/-- What the Express /mcp route did with one request. -/
inductive ExpressAction
  | forwarded (transportId : Nat)
  | initialized (sessionId : String) (transportId : Nat)
  | rejected
deriving DecidableEq, Repr

/-- Result of one Express /mcp request: the action taken, the new state,
the status the route itself set (only the 400 rejection sets one; the
forwarded cases delegate the response to the transport), and the
Mcp-Session-Id header the route itself set. -/
structure ExpressOutcome where
  action : ExpressAction
  state : ExpressState
  routeStatus : Option Nat
  sessionHeader : JsStr
deriving DecidableEq, Repr

/-- Mirrors the app.post handler for /mcp in src/mcp-server.js:
reuse a registered transport, else create one for a session-less
initialize request (setting the Mcp-Session-Id header and storing the
transport under the fresh UUID), else reply 400. -/
def expressMcpPost (st : ExpressState) (sessionId : JsStr)
    (isInitialize : Bool) (newUuid : String) : ExpressOutcome :=
  match (if truthy sessionId then st.transports.get? (sessionId.getD "") else none) with
  | some t => ⟨.forwarded t, st, none, none⟩
  | none =>
    if (!(truthy sessionId) && isInitialize) then
      let tid := st.nextHandle
      ⟨.initialized newUuid tid,
       ⟨st.transports.set newUuid tid, tid + 1⟩,
       none, some newUuid⟩
    else
      ⟨.rejected, st, some 400, none⟩

/-! The shared tool layer (server-definition file): getSessionCredentials
and the try/catch wrapper every registered tool uses. -/

/-- The triple read from process.env by getSessionCredentials. -/
def envCredentials (env : Env) : Credentials :=
  ⟨env.SUPABASE_URL, env.SUPABASE_SERVICE_KEY, env.OPENAI_API_KEY⟩

/-- Mirrors getSessionCredentials of the shared server definition: when a
sessionCredentialsMap is provided (Cloudflare), look the session up and
fall back to process.env; otherwise use process.env directly. -/
def getSessionCredentials (env : Env) (sessionId : JsStr)
    (sessionCredentialsMap : Option (JsMap Credentials)) : Credentials :=
  match sessionCredentialsMap with
  | some m =>
    match sessionId with
    | some s =>
      match m.get? s with
      | some c => c
      | none => envCredentials env
    | none => envCredentials env
  | none => envCredentials env

/-- The credentials a registered tool handler resolves from its extra
argument: extra.credentials when present, else getSessionCredentials. -/
def handlerCredentials (env : Env) (ctx : ToolCallContext) : Credentials :=
  match ctx.extraCredentials with
  | some c => c
  | none => getSessionCredentials env ctx.extraSessionId (some ctx.sessionCredsMapAtCall)

/-- One item of a tool result content array. -/
structure ContentItem where
  type : String
  text : String
deriving DecidableEq, Repr

/-- The structured result a registered tool returns to the SDK. A missing
isError field in the source is modelled as false. -/
structure ToolResult where
  content : List ContentItem
  isError : Bool
deriving DecidableEq, Repr

/-- The try/catch wrapper shared by every registered tool: on success the
serialized collaborator result becomes a text content item; a thrown
error with message m becomes the structured error result. -/
def registeredToolWrapper (body : Except String String) : ToolResult :=
  match body with
  | .ok text => ⟨[⟨"text", text⟩], false⟩
  | .error msg => ⟨[⟨"text", "Error: " ++ msg⟩], true⟩

/-! The store-backed tool collaborators. The Supabase documents table and
the images storage bucket are modelled as in-memory lists; queries that
the store itself answers (select/in/eq/delete) are mirrored as the
corresponding list operations. -/

/-- One row of the documents table. -/
structure DocRow where
  id : String
  filename : String
  content : String
  content_type : String
  file_url : Option String
deriving DecidableEq, Repr

/-- The external store: the documents table rows (chunks cascade-delete
with their document and need no separate modelling here) and the object
paths present in the images storage bucket. -/
structure Db where
  documents : List DocRow
  storedImages : List String
deriving DecidableEq, Repr

/-- The URL infix both delete tools match file_url against. -/
def storageImageMarker : String := "/storage/v1/object/public/images/"

/-- Mirrors the regex extraction of both delete tools: the text after the
first occurrence of the storage marker (at least one character), prefixed
with public/. -/
def imageStoragePath (u : String) : Option String :=
  match u.splitOn storageImageMarker with
  | _ :: p :: ps =>
    let rest := String.intercalate storageImageMarker (p :: ps)
    if rest == "" then none else some ("public/" ++ rest)
  | _ => none

/-- The document_ids argument as the delete-documents guard can see it:
absent/null, present but not an array, or an array of strings. -/
inductive IdsArg
  | undef
  | nonArray
  | arr (ids : List String)
deriving DecidableEq, Repr

/-- The success payload of deleteDocuments (deleted_documents keeps
id and filename per deleted row). -/
structure DeleteManyResult where
  success : Bool
  deleted_count : Nat
  deleted_documents : List (String × String)
deriving DecidableEq, Repr

/-- The storage paths deleteDocuments computes for its image documents. -/
def imagePathsOf (docs : List DocRow) : List String :=
  docs.filterMap (fun d =>
    if d.content_type == "image" then d.file_url.bind imageStoragePath else none)

/-- Mirrors deleteDocuments of delete-documents.js over the modelled
store: validate the argument, find the documents whose id is in the list
(error when none), remove the storage objects of its image documents,
then delete the found rows. The pair carries the store state after the
call, also on a throw. -/
def deleteDocuments (db : Db) (document_ids : IdsArg) :
    Except String DeleteManyResult × Db :=
  match document_ids with
  | .undef => (.error "document_ids must be a non-empty array", db)
  | .nonArray => (.error "document_ids must be a non-empty array", db)
  | .arr ids =>
    if ids.isEmpty then (.error "document_ids must be a non-empty array", db)
    else
      let documents := db.documents.filter (fun d => ids.contains d.id)
      if documents.isEmpty then (.error "No documents found with the provided IDs", db)
      else
        let paths := imagePathsOf documents
        let db1 : Db := { db with storedImages := db.storedImages.filter (fun p => !(paths.contains p)) }
        let db2 : Db := { db1 with documents := db1.documents.filter (fun d => !(ids.contains d.id)) }
        (.ok { success := true
               deleted_count := documents.length
               deleted_documents := documents.map (fun d => (d.id, d.filename)) },
         db2)

/-- Models JSON.stringify on a DeleteManyResult (external stdlib call;
only the fact that success produces some text matters to the claims). -/
def serializeDeleteMany (r : DeleteManyResult) : String :=
  "Successfully deleted " ++ toString r.deleted_count ++ " document(s)"

/-- The registered delete_documents tool end to end: run the collaborator
and feed its outcome through the shared try/catch wrapper. -/
def deleteDocumentsToolCall (db : Db) (a : IdsArg) : ToolResult × Db :=
  let r := deleteDocuments db a
  (registeredToolWrapper (r.1.map serializeDeleteMany), r.2)

/-- The document payload getDocument returns on success. -/
structure GetDocumentOk where
  id : String
  filename : String
  content : String
  content_type : String
  file_url : Option String
deriving DecidableEq, Repr

/-- The value getDocument returns: it catches its own throws and turns
them into a failure object with success false. -/
inductive GetDocumentResult
  | success (doc : GetDocumentOk)
  | failure (error : String)
deriving DecidableEq, Repr

/-- Models the .single() call of the Supabase client: exactly one row or
an error from the store. -/
def singleRow (rows : List DocRow) : Except String DocRow :=
  match rows with
  | [d] => .ok d
  | _ => .error "zero or multiple rows returned"

/-- Mirrors getDocument of get-document.js: filter by filename when that
argument is truthy, else by id when truthy, else throw the
either-filename-or-id message; then .single() the rows. All throws are
caught into a failure value. -/
def getDocument (db : Db) (filename id : JsStr) : GetDocumentResult :=
  if truthy filename then
    match singleRow (db.documents.filter (fun d => some d.filename == filename)) with
    | .error e => .failure ("Failed to get document: " ++ e)
    | .ok d => .success ⟨d.id, d.filename, d.content, d.content_type, d.file_url⟩
  else if truthy id then
    match singleRow (db.documents.filter (fun d => some d.id == id)) with
    | .error e => .failure ("Failed to get document: " ++ e)
    | .ok d => .success ⟨d.id, d.filename, d.content, d.content_type, d.file_url⟩
  else
    .failure "Either filename or id must be provided"

/-- The success payload of deleteDocument. -/
structure DeleteOneOk where
  document_id : String
  filename : String
deriving DecidableEq, Repr

/-- Mirrors deleteDocument (the single-document delete shipped with the
node upload tool): require id or filename, query by id when truthy else
by filename, throw when no row matches, remove the storage object of an
image document, then delete the row by its id. The pair carries the
store state after the call, also on a throw. -/
def deleteDocument (db : Db) (id filename : JsStr) :
    Except String DeleteOneOk × Db :=
  if (!(truthy id) && !(truthy filename)) then
    (.error "Either id or filename must be provided", db)
  else
    let docs :=
      if truthy id then db.documents.filter (fun d => some d.id == id)
      else db.documents.filter (fun d => some d.filename == filename)
    match docs with
    | [] => (.error "Document not found", db)
    | document :: _ =>
      let db1 : Db :=
        if document.content_type == "image" then
          match document.file_url.bind imageStoragePath with
          | some p => { db with storedImages := db.storedImages.filter (fun q => !(q == p)) }
          | none => db
        else db
      let db2 : Db := { db1 with documents := db1.documents.filter (fun d => !(d.id == document.id)) }
      (.ok ⟨document.id, document.filename⟩, db2)

/-! Step lemmas: the outcome of one Worker request in each of the five
control-flow branches of handleMcpRequest, and of the three branches of
the Express route. -/

theorem handleMcp_invalid_creds (env : Env) (newUuid : String)
    (st : WorkerState) (req : WorkerRequest)
    (hv : credentialsValid (resolveCredentials req.headers env) = false) :
    handleMcpRequest env newUuid st req =
      ⟨⟨401, .missingCreds (missingList (resolveCredentials req.headers env)), none⟩, st, none⟩ := by
  simp [handleMcpRequest, hv]

theorem handleMcp_continuation (env : Env) (newUuid : String)
    (st : WorkerState) (req : WorkerRequest) (s : String) (t : Transport)
    (hs : req.headers.mcpSessionId = some s) (hsne : ¬(s = ""))
    (hv : credentialsValid (resolveCredentials req.headers env) = true)
    (hreg : st.transports.get? s = some t) :
    handleMcpRequest env newUuid st req =
      ⟨⟨200, .transportData, some s⟩,
       ⟨st.transports.set s { t with extraCredentials := some (resolveCredentials req.headers env) },
        st.sessionCredentials.set s (resolveCredentials req.headers env),
        st.nextHandle⟩,
       some ⟨t.handleId, some (resolveCredentials req.headers env), some s,
             st.sessionCredentials.set s (resolveCredentials req.headers env)⟩⟩ := by
  have ht : truthy req.headers.mcpSessionId = true := by simp [hs, truthy, hsne]
  simp [handleMcpRequest, hv, hs, ht, hreg, truthy, hsne]

theorem handleMcp_unknown_session (env : Env) (newUuid : String)
    (st : WorkerState) (req : WorkerRequest) (s : String)
    (hs : req.headers.mcpSessionId = some s) (hsne : ¬(s = ""))
    (hv : credentialsValid (resolveCredentials req.headers env) = true)
    (hreg : st.transports.get? s = none) :
    handleMcpRequest env newUuid st req =
      ⟨⟨400, .invalidRequest, none⟩,
       { st with sessionCredentials := st.sessionCredentials.set s (resolveCredentials req.headers env) },
       none⟩ := by
  have ht : truthy req.headers.mcpSessionId = true := by simp [hs, truthy, hsne]
  simp [handleMcpRequest, hv, hs, ht, hreg, truthy, hsne]

theorem handleMcp_createSession (env : Env) (newUuid : String)
    (st : WorkerState) (req : WorkerRequest)
    (ht : truthy req.headers.mcpSessionId = false)
    (hv : credentialsValid (resolveCredentials req.headers env) = true)
    (hinit : req.isInitialize = true) :
    handleMcpRequest env newUuid st req =
      ⟨⟨200, .transportData, some newUuid⟩,
       ⟨st.transports.set newUuid ⟨st.nextHandle, some (resolveCredentials req.headers env)⟩,
        st.sessionCredentials.set newUuid (resolveCredentials req.headers env),
        st.nextHandle + 1⟩,
       some ⟨st.nextHandle, some (resolveCredentials req.headers env), some newUuid,
             st.sessionCredentials.set newUuid (resolveCredentials req.headers env)⟩⟩ := by
  simp [handleMcpRequest, hv, ht, hinit]

theorem handleMcp_reject (env : Env) (newUuid : String)
    (st : WorkerState) (req : WorkerRequest)
    (ht : truthy req.headers.mcpSessionId = false)
    (hv : credentialsValid (resolveCredentials req.headers env) = true)
    (hinit : req.isInitialize = false) :
    handleMcpRequest env newUuid st req = ⟨⟨400, .invalidRequest, none⟩, st, none⟩ := by
  simp [handleMcpRequest, hv, ht, hinit]

theorem express_forwarded (st : ExpressState) (sessionId : JsStr)
    (isInitialize : Bool) (newUuid : String) (s : String) (t : Nat)
    (hs : sessionId = some s) (hsne : ¬(s = ""))
    (hreg : st.transports.get? s = some t) :
    expressMcpPost st sessionId isInitialize newUuid = ⟨.forwarded t, st, none, none⟩ := by
  simp [expressMcpPost, hs, truthy, hsne, hreg]

theorem express_initialized (st : ExpressState) (sessionId : JsStr) (newUuid : String)
    (ht : truthy sessionId = false) :
    expressMcpPost st sessionId true newUuid =
      ⟨.initialized newUuid st.nextHandle,
       ⟨st.transports.set newUuid st.nextHandle, st.nextHandle + 1⟩,
       none, some newUuid⟩ := by
  simp [expressMcpPost, ht]

theorem express_rejected_no_session (st : ExpressState) (sessionId : JsStr) (newUuid : String)
    (ht : truthy sessionId = false) :
    expressMcpPost st sessionId false newUuid = ⟨.rejected, st, some 400, none⟩ := by
  simp [expressMcpPost, ht]

theorem express_rejected_unknown_session (st : ExpressState) (sessionId : JsStr)
    (isInitialize : Bool) (newUuid : String) (s : String)
    (hs : sessionId = some s) (hsne : ¬(s = ""))
    (hreg : st.transports.get? s = none) :
    expressMcpPost st sessionId isInitialize newUuid = ⟨.rejected, st, some 400, none⟩ := by
  simp [expressMcpPost, hs, truthy, hsne, hreg]

theorem mem_missingList (c : Credentials) :
    (("x-supabase-url" ∈ missingList c) ↔ truthy c.supabaseUrl = false) ∧
    (("x-supabase-key" ∈ missingList c) ↔ truthy c.supabaseKey = false) ∧
    (("x-openai-key" ∈ missingList c) ↔ truthy c.openaiKey = false) := by
  unfold missingList
  cases h1 : truthy c.supabaseUrl <;> cases h2 : truthy c.supabaseKey <;>
    cases h3 : truthy c.openaiKey <;> simp

/-! The claims. -/

/-- Claim C2: whenever at least one of the three credential fields is
absent from both the request headers and the environment, the Worker
handler answers 401 with a missing array naming exactly the fields absent
from both sources, leaves the registries untouched and invokes no
transport (hence no tool handler). -/
theorem C2_missing_credentials_rejected (env : Env) (newUuid : String)
    (st : WorkerState) (req : WorkerRequest)
    (habsent : (truthy req.headers.xSupabaseUrl = false ∧ truthy env.SUPABASE_URL = false) ∨
        (truthy req.headers.xSupabaseKey = false ∧ truthy env.SUPABASE_SERVICE_KEY = false) ∨
        (truthy req.headers.xOpenaiKey = false ∧ truthy env.OPENAI_API_KEY = false)) :
    (handleMcpRequest env newUuid st req).response.status = 401 ∧
    (handleMcpRequest env newUuid st req).response.body =
      .missingCreds (missingList (resolveCredentials req.headers env)) ∧
    (handleMcpRequest env newUuid st req).state = st ∧
    (handleMcpRequest env newUuid st req).dispatched = none ∧
    (("x-supabase-url" ∈ missingList (resolveCredentials req.headers env)) ↔
      (truthy req.headers.xSupabaseUrl = false ∧ truthy env.SUPABASE_URL = false)) ∧
    (("x-supabase-key" ∈ missingList (resolveCredentials req.headers env)) ↔
      (truthy req.headers.xSupabaseKey = false ∧ truthy env.SUPABASE_SERVICE_KEY = false)) ∧
    (("x-openai-key" ∈ missingList (resolveCredentials req.headers env)) ↔
      (truthy req.headers.xOpenaiKey = false ∧ truthy env.OPENAI_API_KEY = false)) := by
  have hv : credentialsValid (resolveCredentials req.headers env) = false := by
    rcases habsent with ⟨h1, h2⟩ | ⟨h1, h2⟩ | ⟨h1, h2⟩ <;>
      simp [credentialsValid, resolveCredentials, truthy_jsOr, h1, h2]
  rw [handleMcp_invalid_creds env newUuid st req hv]
  refine ⟨rfl, rfl, rfl, rfl, ?_, ?_, ?_⟩ <;>
    simp [mem_missingList, resolveCredentials, truthy_jsOr]

theorem C2_missing_credentials_rejected_witness :
    (handleMcpRequest ⟨some "env-url", none, some "env-oai"⟩ "U" ⟨[], [], 0⟩
        ⟨⟨none, some "hdr-url", none, none⟩, true⟩).response.status = 401 ∧
    (handleMcpRequest ⟨some "env-url", none, some "env-oai"⟩ "U" ⟨[], [], 0⟩
        ⟨⟨none, some "hdr-url", none, none⟩, true⟩).response.body =
      .missingCreds (missingList (resolveCredentials ⟨none, some "hdr-url", none, none⟩
        ⟨some "env-url", none, some "env-oai"⟩)) ∧
    (handleMcpRequest ⟨some "env-url", none, some "env-oai"⟩ "U" ⟨[], [], 0⟩
        ⟨⟨none, some "hdr-url", none, none⟩, true⟩).state = ⟨[], [], 0⟩ ∧
    (handleMcpRequest ⟨some "env-url", none, some "env-oai"⟩ "U" ⟨[], [], 0⟩
        ⟨⟨none, some "hdr-url", none, none⟩, true⟩).dispatched = none ∧
    ("x-supabase-url" ∉ missingList (resolveCredentials ⟨none, some "hdr-url", none, none⟩
        ⟨some "env-url", none, some "env-oai"⟩)) ∧
    ("x-supabase-key" ∈ missingList (resolveCredentials ⟨none, some "hdr-url", none, none⟩
        ⟨some "env-url", none, some "env-oai"⟩)) ∧
    ("x-openai-key" ∉ missingList (resolveCredentials ⟨none, some "hdr-url", none, none⟩
        ⟨some "env-url", none, some "env-oai"⟩)) := by
  have h := C2_missing_credentials_rejected ⟨some "env-url", none, some "env-oai"⟩ "U"
    ⟨[], [], 0⟩ ⟨⟨none, some "hdr-url", none, none⟩, true⟩ (Or.inr (Or.inl (by decide)))
  exact ⟨h.1, h.2.1, h.2.2.1, h.2.2.2.1,
    fun hmem => absurd ((h.2.2.2.2.1).mp hmem) (by decide),
    (h.2.2.2.2.2.1).mpr (by decide),
    fun hmem => absurd ((h.2.2.2.2.2.2).mp hmem) (by decide)⟩

/-- Claim C3: for every credential field, a truthy request-header value
wins over whatever the environment holds, and the environment value is
used exactly when the header does not supply one. -/
theorem C3_header_precedence (h : RequestHeaders) (env : Env) :
    (truthy h.xSupabaseUrl = true → (resolveCredentials h env).supabaseUrl = h.xSupabaseUrl) ∧
    (truthy h.xSupabaseUrl = false → (resolveCredentials h env).supabaseUrl = env.SUPABASE_URL) ∧
    (truthy h.xSupabaseKey = true → (resolveCredentials h env).supabaseKey = h.xSupabaseKey) ∧
    (truthy h.xSupabaseKey = false → (resolveCredentials h env).supabaseKey = env.SUPABASE_SERVICE_KEY) ∧
    (truthy h.xOpenaiKey = true → (resolveCredentials h env).openaiKey = h.xOpenaiKey) ∧
    (truthy h.xOpenaiKey = false → (resolveCredentials h env).openaiKey = env.OPENAI_API_KEY) := by
  refine ⟨?_, ?_, ?_, ?_, ?_, ?_⟩ <;> intro hx <;> simp [resolveCredentials, jsOr, hx]

theorem C3_header_precedence_witness :
    (resolveCredentials ⟨none, some "hdr-url", some "hdr-key", some "hdr-oai"⟩
      ⟨some "env-url", some "env-key", some "env-oai"⟩).supabaseUrl = some "hdr-url" ∧
    (resolveCredentials ⟨none, none, some "hdr-key", none⟩
      ⟨some "env-url", some "env-key", some "env-oai"⟩).supabaseUrl = some "env-url" :=
  ⟨(C3_header_precedence ⟨none, some "hdr-url", some "hdr-key", some "hdr-oai"⟩
      ⟨some "env-url", some "env-key", some "env-oai"⟩).1 (by decide),
   (C3_header_precedence ⟨none, none, some "hdr-key", none⟩
      ⟨some "env-url", some "env-key", some "env-oai"⟩).2.1 (by decide)⟩

/-- Claim C1, counterexample: a session created WITH credential headers
stores the header triple; a continuation request for that session with no
credential headers re-resolves from the environment and, because the
Worker overwrites the sessionCredentials entry on every request, both the
credentials handed to the tool handler and the getSessionCredentials
lookup yield the environment triple, not the triple stored when the
session was created. -/
theorem C1_counterexample :
    (handleMcpRequest ⟨some "env-url", some "env-key", some "env-oai"⟩ "S" ⟨[], [], 0⟩
        ⟨⟨none, some "hdr-url", some "hdr-key", some "hdr-oai"⟩, true⟩).state.sessionCredentials.get? "S" =
      some ⟨some "hdr-url", some "hdr-key", some "hdr-oai"⟩ ∧
    ((handleMcpRequest ⟨some "env-url", some "env-key", some "env-oai"⟩ "S2"
        (handleMcpRequest ⟨some "env-url", some "env-key", some "env-oai"⟩ "S" ⟨[], [], 0⟩
          ⟨⟨none, some "hdr-url", some "hdr-key", some "hdr-oai"⟩, true⟩).state
        ⟨⟨some "S", none, none, none⟩, false⟩).dispatched.map
      (handlerCredentials ⟨some "env-url", some "env-key", some "env-oai"⟩)) =
      some ⟨some "env-url", some "env-key", some "env-oai"⟩ ∧
    getSessionCredentials ⟨some "env-url", some "env-key", some "env-oai"⟩ (some "S")
      (some (handleMcpRequest ⟨some "env-url", some "env-key", some "env-oai"⟩ "S2"
        (handleMcpRequest ⟨some "env-url", some "env-key", some "env-oai"⟩ "S" ⟨[], [], 0⟩
          ⟨⟨none, some "hdr-url", some "hdr-key", some "hdr-oai"⟩, true⟩).state
        ⟨⟨some "S", none, none, none⟩, false⟩).state.sessionCredentials) =
      ⟨some "env-url", some "env-key", some "env-oai"⟩ ∧
    (⟨some "env-url", some "env-key", some "env-oai"⟩ : Credentials) ≠
      ⟨some "hdr-url", some "hdr-key", some "hdr-oai"⟩ := by
  decide

/-- Claim C1, amended: on a continuation request with a registered
session id and no credential headers, the tool handler receives the
triple resolved from the current environment (all three fields truthy,
hence not empty), which the sessionCredentials entry for that session
then also holds; when the session itself was created by a header-less
initialize request under the same environment, this is exactly the triple
stored at session-create time. -/
theorem C1_amended (env : Env) (newUuid : String) (st : WorkerState)
    (req : WorkerRequest) (s : String) (t : Transport)
    (hvalid : credentialsValid (envCredentials env) = true)
    (hnh1 : req.headers.xSupabaseUrl = none)
    (hnh2 : req.headers.xSupabaseKey = none)
    (hnh3 : req.headers.xOpenaiKey = none)
    (hs : req.headers.mcpSessionId = some s) (hsne : ¬(s = ""))
    (hreg : st.transports.get? s = some t) :
    ∃ ctx, (handleMcpRequest env newUuid st req).dispatched = some ctx ∧
      handlerCredentials env ctx = envCredentials env ∧
      truthy (handlerCredentials env ctx).supabaseUrl = true ∧
      truthy (handlerCredentials env ctx).supabaseKey = true ∧
      truthy (handlerCredentials env ctx).openaiKey = true ∧
      (handleMcpRequest env newUuid st req).state.sessionCredentials.get? s =
        some (envCredentials env) ∧
      getSessionCredentials env (some s)
        (some (handleMcpRequest env newUuid st req).state.sessionCredentials) =
        envCredentials env ∧
      (handleMcpRequest env newUuid st req).response.status = 200 ∧
      (∀ (st0 : WorkerState) (uuid0 : String) (r0 : WorkerRequest),
        r0.headers.xSupabaseUrl = none → r0.headers.xSupabaseKey = none →
        r0.headers.xOpenaiKey = none → truthy r0.headers.mcpSessionId = false →
        r0.isInitialize = true →
        (handleMcpRequest env uuid0 st0 r0).state.sessionCredentials.get? uuid0 =
          some (envCredentials env)) := by
  have hcred : resolveCredentials req.headers env = envCredentials env := by
    simp [resolveCredentials, envCredentials, jsOr, truthy, hnh1, hnh2, hnh3]
  have hv : credentialsValid (resolveCredentials req.headers env) = true := by
    rw [hcred]; exact hvalid
  have h3 : truthy (envCredentials env).supabaseUrl = true ∧
      truthy (envCredentials env).supabaseKey = true ∧
      truthy (envCredentials env).openaiKey = true := by
    have := hvalid
    simp [credentialsValid] at this
    exact ⟨this.1.1, this.1.2, this.2⟩
  have hget : (st.sessionCredentials.set s (resolveCredentials req.headers env)).get? s =
      some (resolveCredentials req.headers env) :=
    JsMap.get?_set_self st.sessionCredentials s (resolveCredentials req.headers env)
  rw [handleMcp_continuation env newUuid st req s t hs hsne hv hreg]
  refine ⟨⟨t.handleId, some (resolveCredentials req.headers env), some s,
    st.sessionCredentials.set s (resolveCredentials req.headers env)⟩,
    rfl, ?_, ?_, ?_, ?_, ?_, ?_, rfl, ?_⟩
  · simp [handlerCredentials, hcred]
  · simp [handlerCredentials, hcred, h3.1]
  · simp [handlerCredentials, hcred, h3.2.1]
  · simp [handlerCredentials, hcred, h3.2.2]
  · simpa [hcred] using hget
  · simp [getSessionCredentials, JsMap.get?_set_self, hcred]
  · intro st0 uuid0 r0 g1 g2 g3 g4 g5
    have hcred0 : resolveCredentials r0.headers env = envCredentials env := by
      simp [resolveCredentials, envCredentials, jsOr, truthy, g1, g2, g3]
    have hv0 : credentialsValid (resolveCredentials r0.headers env) = true := by
      rw [hcred0]; exact hvalid
    rw [handleMcp_createSession env uuid0 st0 r0 g4 hv0 g5]
    simpa [hcred0] using JsMap.get?_set_self st0.sessionCredentials uuid0 (resolveCredentials r0.headers env)

theorem C1_amended_witness :
    ∃ ctx,
      (handleMcpRequest ⟨some "env-url", some "env-key", some "env-oai"⟩ "U"
        ⟨[("S", ⟨0, none⟩)], [("S", ⟨some "env-url", some "env-key", some "env-oai"⟩)], 1⟩
        ⟨⟨some "S", none, none, none⟩, false⟩).dispatched = some ctx ∧
      handlerCredentials ⟨some "env-url", some "env-key", some "env-oai"⟩ ctx =
        envCredentials ⟨some "env-url", some "env-key", some "env-oai"⟩ ∧
      truthy (handlerCredentials ⟨some "env-url", some "env-key", some "env-oai"⟩ ctx).supabaseUrl = true ∧
      truthy (handlerCredentials ⟨some "env-url", some "env-key", some "env-oai"⟩ ctx).supabaseKey = true ∧
      truthy (handlerCredentials ⟨some "env-url", some "env-key", some "env-oai"⟩ ctx).openaiKey = true ∧
      (handleMcpRequest ⟨some "env-url", some "env-key", some "env-oai"⟩ "U"
        ⟨[("S", ⟨0, none⟩)], [("S", ⟨some "env-url", some "env-key", some "env-oai"⟩)], 1⟩
        ⟨⟨some "S", none, none, none⟩, false⟩).state.sessionCredentials.get? "S" =
        some (envCredentials ⟨some "env-url", some "env-key", some "env-oai"⟩) ∧
      getSessionCredentials ⟨some "env-url", some "env-key", some "env-oai"⟩ (some "S")
        (some (handleMcpRequest ⟨some "env-url", some "env-key", some "env-oai"⟩ "U"
          ⟨[("S", ⟨0, none⟩)], [("S", ⟨some "env-url", some "env-key", some "env-oai"⟩)], 1⟩
          ⟨⟨some "S", none, none, none⟩, false⟩).state.sessionCredentials) =
        envCredentials ⟨some "env-url", some "env-key", some "env-oai"⟩ ∧
      (handleMcpRequest ⟨some "env-url", some "env-key", some "env-oai"⟩ "U"
        ⟨[("S", ⟨0, none⟩)], [("S", ⟨some "env-url", some "env-key", some "env-oai"⟩)], 1⟩
        ⟨⟨some "S", none, none, none⟩, false⟩).response.status = 200 ∧
      (∀ (st0 : WorkerState) (uuid0 : String) (r0 : WorkerRequest),
        r0.headers.xSupabaseUrl = none → r0.headers.xSupabaseKey = none →
        r0.headers.xOpenaiKey = none → truthy r0.headers.mcpSessionId = false →
        r0.isInitialize = true →
        (handleMcpRequest ⟨some "env-url", some "env-key", some "env-oai"⟩ uuid0 st0
          r0).state.sessionCredentials.get? uuid0 =
          some (envCredentials ⟨some "env-url", some "env-key", some "env-oai"⟩)) :=
  C1_amended ⟨some "env-url", some "env-key", some "env-oai"⟩ "U"
    ⟨[("S", ⟨0, none⟩)], [("S", ⟨some "env-url", some "env-key", some "env-oai"⟩)], 1⟩
    ⟨⟨some "S", none, none, none⟩, false⟩ "S" ⟨0, none⟩
    (by decide) rfl rfl rfl rfl (by decide) (by decide)

/-- Claim C4, counterexample: a message with no session id and a
non-initialize body is answered by the Worker handler with 401 (missing
credentials), not 400 with an invalid-request body, when the credentials
do not resolve; the credential gate runs before the router
classification. -/
theorem C4_counterexample :
    (handleMcpRequest ⟨none, none, none⟩ "U" ⟨[], [], 0⟩
      ⟨⟨none, none, none, none⟩, false⟩).response.status = 401 ∧
    ¬((handleMcpRequest ⟨none, none, none⟩ "U" ⟨[], [], 0⟩
      ⟨⟨none, none, none, none⟩, false⟩).response.status = 400) ∧
    ¬((handleMcpRequest ⟨none, none, none⟩ "U" ⟨[], [], 0⟩
      ⟨⟨none, none, none, none⟩, false⟩).response.body = .invalidRequest) ∧
    (handleMcpRequest ⟨none, none, none⟩ "U" ⟨[], [], 0⟩
      ⟨⟨none, none, none, none⟩, false⟩).state = ⟨[], [], 0⟩ := by
  decide

/-- Claim C4, amended: on a message with no session id that is not an
initialize request, the Express route always answers 400 with the
invalid-request error and leaves the transports registry unchanged; the
Worker handler does the same provided the credentials resolve, and
answers 401 (missing credentials) with registries unchanged otherwise —
in every case no session is created and the registries are unchanged. -/
theorem C4_amended (st : ExpressState) (sessionId : JsStr) (newUuid : String)
    (env : Env) (uuidW : String) (stW : WorkerState) (req : WorkerRequest)
    (hte : truthy sessionId = false)
    (htw : truthy req.headers.mcpSessionId = false)
    (hinit : req.isInitialize = false) :
    (expressMcpPost st sessionId false newUuid = ⟨.rejected, st, some 400, none⟩) ∧
    (credentialsValid (resolveCredentials req.headers env) = true →
      handleMcpRequest env uuidW stW req = ⟨⟨400, .invalidRequest, none⟩, stW, none⟩) ∧
    (credentialsValid (resolveCredentials req.headers env) = false →
      (handleMcpRequest env uuidW stW req).response.status = 401 ∧
      (handleMcpRequest env uuidW stW req).state = stW ∧
      (handleMcpRequest env uuidW stW req).dispatched = none) := by
  refine ⟨express_rejected_no_session st sessionId newUuid hte, ?_, ?_⟩
  · intro hv
    exact handleMcp_reject env uuidW stW req htw hv hinit
  · intro hv
    rw [handleMcp_invalid_creds env uuidW stW req hv]
    exact ⟨rfl, rfl, rfl⟩

theorem C4_amended_witness :
    (expressMcpPost ⟨[], 0⟩ none false "U" = ⟨.rejected, ⟨[], 0⟩, some 400, none⟩) ∧
    (credentialsValid (resolveCredentials
        (⟨none, none, none, none⟩ : RequestHeaders) ⟨some "u", some "k", some "o"⟩) = true →
      handleMcpRequest ⟨some "u", some "k", some "o"⟩ "U" ⟨[], [], 0⟩
        ⟨⟨none, none, none, none⟩, false⟩ = ⟨⟨400, .invalidRequest, none⟩, ⟨[], [], 0⟩, none⟩) ∧
    (credentialsValid (resolveCredentials
        (⟨none, none, none, none⟩ : RequestHeaders) ⟨some "u", some "k", some "o"⟩) = false →
      (handleMcpRequest ⟨some "u", some "k", some "o"⟩ "U" ⟨[], [], 0⟩
        ⟨⟨none, none, none, none⟩, false⟩).response.status = 401 ∧
      (handleMcpRequest ⟨some "u", some "k", some "o"⟩ "U" ⟨[], [], 0⟩
        ⟨⟨none, none, none, none⟩, false⟩).state = ⟨[], [], 0⟩ ∧
      (handleMcpRequest ⟨some "u", some "k", some "o"⟩ "U" ⟨[], [], 0⟩
        ⟨⟨none, none, none, none⟩, false⟩).dispatched = none) :=
  C4_amended ⟨[], 0⟩ none "U" ⟨some "u", some "k", some "o"⟩ "U" ⟨[], [], 0⟩
    ⟨⟨none, none, none, none⟩, false⟩ (by decide) (by decide) rfl

/-- Claim C5, counterexample: a message whose session id is present and
registered in the transports map is NOT forwarded to the stored transport
by the Worker handler when the credentials do not resolve: it is answered
401 before any routing, so the universal claim fails. -/
theorem C5_counterexample :
    (⟨[("S", ⟨7, none⟩)], [("S", ⟨some "u", some "k", some "o"⟩)], 8⟩ :
      WorkerState).transports.hasKey "S" = true ∧
    (handleMcpRequest ⟨none, none, none⟩ "U"
      ⟨[("S", ⟨7, none⟩)], [("S", ⟨some "u", some "k", some "o"⟩)], 8⟩
      ⟨⟨some "S", none, none, none⟩, false⟩).dispatched = none ∧
    (handleMcpRequest ⟨none, none, none⟩ "U"
      ⟨[("S", ⟨7, none⟩)], [("S", ⟨some "u", some "k", some "o"⟩)], 8⟩
      ⟨⟨some "S", none, none, none⟩, false⟩).response.status = 401 := by
  decide

/-- Claim C5, amended: a message bearing a registered session id is routed
to that session's stored transport handle with no new transport
constructed and no new registry entry, and the original session id is
preserved in the outbound header; on the Express route this holds
unconditionally, on the Worker it holds provided the credentials resolve
(otherwise the request is answered 401 and nothing is forwarded). -/
theorem C5_amended (st : ExpressState) (sessionId : JsStr) (isInitialize : Bool)
    (newUuid : String) (s : String) (t : Nat)
    (env : Env) (uuidW : String) (stW : WorkerState) (reqW : WorkerRequest)
    (sW : String) (tW : Transport)
    (hs : sessionId = some s) (hsne : ¬(s = ""))
    (hreg : st.transports.get? s = some t)
    (hsW : reqW.headers.mcpSessionId = some sW) (hsneW : ¬(sW = ""))
    (hregW : stW.transports.get? sW = some tW)
    (hvW : credentialsValid (resolveCredentials reqW.headers env) = true) :
    (expressMcpPost st sessionId isInitialize newUuid = ⟨.forwarded t, st, none, none⟩) ∧
    (∃ ctx, (handleMcpRequest env uuidW stW reqW).dispatched = some ctx ∧
      ctx.transportId = tW.handleId) ∧
    (handleMcpRequest env uuidW stW reqW).response.mcpSessionId = some sW ∧
    (handleMcpRequest env uuidW stW reqW).response.status = 200 ∧
    (handleMcpRequest env uuidW stW reqW).state.transports.keys = stW.transports.keys ∧
    (handleMcpRequest env uuidW stW reqW).state.nextHandle = stW.nextHandle ∧
    ((handleMcpRequest env uuidW stW reqW).state.transports.get? sW).map Transport.handleId =
      some tW.handleId := by
  have hmem : sW ∈ stW.transports.keys := by
    rw [JsMap.mem_keys_iff_get?, hregW]
    rfl
  rw [handleMcp_continuation env uuidW stW reqW sW tW hsW hsneW hvW hregW]
  refine ⟨express_forwarded st sessionId isInitialize newUuid s t hs hsne hreg,
    ⟨_, rfl, rfl⟩, rfl, rfl, ?_, rfl, ?_⟩
  · exact JsMap.keys_set_mem stW.transports sW _ hmem
  · show ((stW.transports.set sW { tW with extraCredentials := some (resolveCredentials reqW.headers env) }).get? sW).map Transport.handleId = some tW.handleId
    rw [JsMap.get?_set_self]
    rfl

theorem C5_amended_witness :
    (expressMcpPost ⟨[("S", 3)], 4⟩ (some "S") false "U" =
      ⟨.forwarded 3, ⟨[("S", 3)], 4⟩, none, none⟩) ∧
    (∃ ctx, (handleMcpRequest ⟨some "u", some "k", some "o"⟩ "U"
        ⟨[("S", ⟨7, none⟩)], [], 8⟩ ⟨⟨some "S", none, none, none⟩, false⟩).dispatched = some ctx ∧
      ctx.transportId = (⟨7, none⟩ : Transport).handleId) ∧
    (handleMcpRequest ⟨some "u", some "k", some "o"⟩ "U"
      ⟨[("S", ⟨7, none⟩)], [], 8⟩ ⟨⟨some "S", none, none, none⟩, false⟩).response.mcpSessionId = some "S" ∧
    (handleMcpRequest ⟨some "u", some "k", some "o"⟩ "U"
      ⟨[("S", ⟨7, none⟩)], [], 8⟩ ⟨⟨some "S", none, none, none⟩, false⟩).response.status = 200 ∧
    (handleMcpRequest ⟨some "u", some "k", some "o"⟩ "U"
      ⟨[("S", ⟨7, none⟩)], [], 8⟩ ⟨⟨some "S", none, none, none⟩, false⟩).state.transports.keys =
      (⟨[("S", ⟨7, none⟩)], [], 8⟩ : WorkerState).transports.keys ∧
    (handleMcpRequest ⟨some "u", some "k", some "o"⟩ "U"
      ⟨[("S", ⟨7, none⟩)], [], 8⟩ ⟨⟨some "S", none, none, none⟩, false⟩).state.nextHandle = 8 ∧
    ((handleMcpRequest ⟨some "u", some "k", some "o"⟩ "U"
      ⟨[("S", ⟨7, none⟩)], [], 8⟩
      ⟨⟨some "S", none, none, none⟩, false⟩).state.transports.get? "S").map Transport.handleId =
      some 7 :=
  C5_amended ⟨[("S", 3)], 4⟩ (some "S") false "U" "S" 3
    ⟨some "u", some "k", some "o"⟩ "U" ⟨[("S", ⟨7, none⟩)], [], 8⟩
    ⟨⟨some "S", none, none, none⟩, false⟩ "S" ⟨7, none⟩
    rfl (by decide) (by decide) rfl (by decide) (by decide) (by decide)

/-- Claim C6, counterexample: a rejected request carrying an unknown,
client-supplied session id still inserts a brand-new sessionCredentials
entry under that id. The mutation is not the session-creation insert
(no session is created: the response is 400 and the generated UUID "U" is
not the inserted key) and not an overwrite of an existing id (the key was
absent before), refuting that every registry mutation is one of those
two. -/
theorem C6_counterexample :
    (handleMcpRequest ⟨some "u", some "k", some "o"⟩ "U" ⟨[], [], 0⟩
      ⟨⟨some "ghost", none, none, none⟩, false⟩).response.status = 400 ∧
    (handleMcpRequest ⟨some "u", some "k", some "o"⟩ "U" ⟨[], [], 0⟩
      ⟨⟨some "ghost", none, none, none⟩, false⟩).dispatched = none ∧
    ((⟨[], [], 0⟩ : WorkerState).sessionCredentials.get? "ghost" = none) ∧
    (handleMcpRequest ⟨some "u", some "k", some "o"⟩ "U" ⟨[], [], 0⟩
      ⟨⟨some "ghost", none, none, none⟩, false⟩).state.sessionCredentials.get? "ghost" =
      some ⟨some "u", some "k", some "o"⟩ ∧
    ¬(("ghost" : String) = "U") := by
  decide

/-- Claim C6, amended: the registries hold at most one entry per session
id and never lose an entry; under the generator-freshness assumption
(the generated UUID is distinct from every live id), session creation
appends exactly one entry under the fresh UUID to each map; every other
key appearing after a request was either already present, or is the
generated UUID, or — for sessionCredentials only — is the session id the
request itself carried (even when unregistered). -/
theorem C6_amended (env : Env) (uuid : String) (st : WorkerState) (req : WorkerRequest)
    (hfresh : uuid ∉ st.transports.keys ∧ uuid ∉ st.sessionCredentials.keys)
    (hnodup : st.transports.keys.Nodup ∧ st.sessionCredentials.keys.Nodup) :
    (handleMcpRequest env uuid st req).state.transports.keys.Nodup ∧
    (handleMcpRequest env uuid st req).state.sessionCredentials.keys.Nodup ∧
    (∀ k, k ∈ st.transports.keys →
      k ∈ (handleMcpRequest env uuid st req).state.transports.keys) ∧
    (∀ k, k ∈ st.sessionCredentials.keys →
      k ∈ (handleMcpRequest env uuid st req).state.sessionCredentials.keys) ∧
    (∀ k, k ∈ (handleMcpRequest env uuid st req).state.transports.keys →
      k ∈ st.transports.keys ∨ k = uuid) ∧
    (∀ k, k ∈ (handleMcpRequest env uuid st req).state.sessionCredentials.keys →
      k ∈ st.sessionCredentials.keys ∨ k = uuid ∨ req.headers.mcpSessionId = some k) ∧
    (truthy req.headers.mcpSessionId = false → req.isInitialize = true →
      credentialsValid (resolveCredentials req.headers env) = true →
      (handleMcpRequest env uuid st req).state.transports.keys = st.transports.keys ++ [uuid] ∧
      (handleMcpRequest env uuid st req).state.sessionCredentials.keys =
        st.sessionCredentials.keys ++ [uuid]) := by
  by_cases hv : credentialsValid (resolveCredentials req.headers env) = true
  · by_cases ht : truthy req.headers.mcpSessionId = true
    · obtain ⟨s, hs, hsne⟩ : ∃ s, req.headers.mcpSessionId = some s ∧ ¬(s = "") := by
        cases hmc : req.headers.mcpSessionId with
        | none => rw [hmc] at ht; simp [truthy] at ht
        | some s =>
          refine ⟨s, rfl, ?_⟩
          rw [hmc] at ht
          simp [truthy] at ht
          simpa using ht
      cases hreg : st.transports.get? s with
      | some t =>
        rw [handleMcp_continuation env uuid st req s t hs hsne hv hreg]
        have hmem : s ∈ st.transports.keys := by
          rw [JsMap.mem_keys_iff_get?, hreg]; rfl
        have hkeys : (st.transports.set s { t with extraCredentials := some (resolveCredentials req.headers env) }).keys = st.transports.keys :=
          JsMap.keys_set_mem st.transports s _ hmem
        refine ⟨?_, ?_, ?_, ?_, ?_, ?_, ?_⟩
        · show (st.transports.set s { t with extraCredentials := some (resolveCredentials req.headers env) }).keys.Nodup
          rw [hkeys]; exact hnodup.1
        · exact JsMap.nodup_keys_set st.sessionCredentials s _ hnodup.2
        · intro k hk
          show k ∈ (st.transports.set s { t with extraCredentials := some (resolveCredentials req.headers env) }).keys
          rw [hkeys]; exact hk
        · intro k hk
          exact JsMap.mem_keys_set_of_mem st.sessionCredentials s k _ hk
        · intro k hk
          rw [hkeys] at hk
          exact Or.inl hk
        · intro k hk
          rcases JsMap.mem_keys_set st.sessionCredentials s k _ hk with h | h
          · exact Or.inl h
          · exact Or.inr (Or.inr (h ▸ hs))
        · intro hcontra
          rw [hs] at hcontra
          simp [truthy, hsne] at hcontra
      | none =>
        rw [handleMcp_unknown_session env uuid st req s hs hsne hv hreg]
        refine ⟨hnodup.1, JsMap.nodup_keys_set st.sessionCredentials s _ hnodup.2, ?_, ?_, ?_, ?_, ?_⟩
        · intro k hk; exact hk
        · intro k hk
          exact JsMap.mem_keys_set_of_mem st.sessionCredentials s k _ hk
        · intro k hk; exact Or.inl hk
        · intro k hk
          rcases JsMap.mem_keys_set st.sessionCredentials s k _ hk with h | h
          · exact Or.inl h
          · exact Or.inr (Or.inr (h ▸ hs))
        · intro hcontra
          rw [hs] at hcontra
          simp [truthy, hsne] at hcontra
    · have ht2 : truthy req.headers.mcpSessionId = false := by
        cases h2 : truthy req.headers.mcpSessionId
        · rfl
        · exact absurd h2 ht
      by_cases hinit : req.isInitialize = true
      · rw [handleMcp_createSession env uuid st req ht2 hv hinit]
        have hkt : (st.transports.set uuid ⟨st.nextHandle, some (resolveCredentials req.headers env)⟩).keys = st.transports.keys ++ [uuid] :=
          JsMap.keys_set_not_mem st.transports uuid _ hfresh.1
        have hkc : (st.sessionCredentials.set uuid (resolveCredentials req.headers env)).keys = st.sessionCredentials.keys ++ [uuid] :=
          JsMap.keys_set_not_mem st.sessionCredentials uuid _ hfresh.2
        refine ⟨?_, ?_, ?_, ?_, ?_, ?_, fun _ _ _ => ⟨hkt, hkc⟩⟩
        · exact JsMap.nodup_keys_set st.transports uuid _ hnodup.1
        · exact JsMap.nodup_keys_set st.sessionCredentials uuid _ hnodup.2
        · intro k hk
          exact JsMap.mem_keys_set_of_mem st.transports uuid k _ hk
        · intro k hk
          exact JsMap.mem_keys_set_of_mem st.sessionCredentials uuid k _ hk
        · intro k hk
          exact JsMap.mem_keys_set st.transports uuid k _ hk
        · intro k hk
          rcases JsMap.mem_keys_set st.sessionCredentials uuid k _ hk with h | h
          · exact Or.inl h
          · exact Or.inr (Or.inl h)
      · have hinit2 : req.isInitialize = false := by
          cases h2 : req.isInitialize
          · rfl
          · exact absurd h2 hinit
        rw [handleMcp_reject env uuid st req ht2 hv hinit2]
        refine ⟨hnodup.1, hnodup.2, fun k hk => hk, fun k hk => hk,
          fun k hk => Or.inl hk, fun k hk => Or.inl hk, ?_⟩
        intro _ hcontra _
        rw [hinit2] at hcontra
        exact absurd hcontra (by decide)
  · have hv2 : credentialsValid (resolveCredentials req.headers env) = false := by
      cases h2 : credentialsValid (resolveCredentials req.headers env)
      · rfl
      · exact absurd h2 hv
    rw [handleMcp_invalid_creds env uuid st req hv2]
    refine ⟨hnodup.1, hnodup.2, fun k hk => hk, fun k hk => hk,
      fun k hk => Or.inl hk, fun k hk => Or.inl hk, ?_⟩
    intro _ _ hcontra
    rw [hv2] at hcontra
    exact absurd hcontra (by decide)

theorem C6_amended_witness :
    (handleMcpRequest ⟨some "u", some "k", some "o"⟩ "U" ⟨[("S", ⟨0, none⟩)], [("S", ⟨some "u", some "k", some "o"⟩)], 1⟩
      ⟨⟨none, none, none, none⟩, true⟩).state.transports.keys.Nodup ∧
    (handleMcpRequest ⟨some "u", some "k", some "o"⟩ "U" ⟨[("S", ⟨0, none⟩)], [("S", ⟨some "u", some "k", some "o"⟩)], 1⟩
      ⟨⟨none, none, none, none⟩, true⟩).state.sessionCredentials.keys.Nodup ∧
    (∀ k, k ∈ (⟨[("S", ⟨0, none⟩)], [("S", ⟨some "u", some "k", some "o"⟩)], 1⟩ : WorkerState).transports.keys →
      k ∈ (handleMcpRequest ⟨some "u", some "k", some "o"⟩ "U" ⟨[("S", ⟨0, none⟩)], [("S", ⟨some "u", some "k", some "o"⟩)], 1⟩
        ⟨⟨none, none, none, none⟩, true⟩).state.transports.keys) ∧
    (∀ k, k ∈ (⟨[("S", ⟨0, none⟩)], [("S", ⟨some "u", some "k", some "o"⟩)], 1⟩ : WorkerState).sessionCredentials.keys →
      k ∈ (handleMcpRequest ⟨some "u", some "k", some "o"⟩ "U" ⟨[("S", ⟨0, none⟩)], [("S", ⟨some "u", some "k", some "o"⟩)], 1⟩
        ⟨⟨none, none, none, none⟩, true⟩).state.sessionCredentials.keys) ∧
    (∀ k, k ∈ (handleMcpRequest ⟨some "u", some "k", some "o"⟩ "U" ⟨[("S", ⟨0, none⟩)], [("S", ⟨some "u", some "k", some "o"⟩)], 1⟩
        ⟨⟨none, none, none, none⟩, true⟩).state.transports.keys →
      k ∈ (⟨[("S", ⟨0, none⟩)], [("S", ⟨some "u", some "k", some "o"⟩)], 1⟩ : WorkerState).transports.keys ∨ k = "U") ∧
    (∀ k, k ∈ (handleMcpRequest ⟨some "u", some "k", some "o"⟩ "U" ⟨[("S", ⟨0, none⟩)], [("S", ⟨some "u", some "k", some "o"⟩)], 1⟩
        ⟨⟨none, none, none, none⟩, true⟩).state.sessionCredentials.keys →
      k ∈ (⟨[("S", ⟨0, none⟩)], [("S", ⟨some "u", some "k", some "o"⟩)], 1⟩ : WorkerState).sessionCredentials.keys ∨ k = "U" ∨
        (⟨⟨none, none, none, none⟩, true⟩ : WorkerRequest).headers.mcpSessionId = some k) ∧
    (truthy (⟨⟨none, none, none, none⟩, true⟩ : WorkerRequest).headers.mcpSessionId = false →
      (⟨⟨none, none, none, none⟩, true⟩ : WorkerRequest).isInitialize = true →
      credentialsValid (resolveCredentials (⟨⟨none, none, none, none⟩, true⟩ : WorkerRequest).headers
        ⟨some "u", some "k", some "o"⟩) = true →
      (handleMcpRequest ⟨some "u", some "k", some "o"⟩ "U" ⟨[("S", ⟨0, none⟩)], [("S", ⟨some "u", some "k", some "o"⟩)], 1⟩
        ⟨⟨none, none, none, none⟩, true⟩).state.transports.keys =
        (⟨[("S", ⟨0, none⟩)], [("S", ⟨some "u", some "k", some "o"⟩)], 1⟩ : WorkerState).transports.keys ++ ["U"] ∧
      (handleMcpRequest ⟨some "u", some "k", some "o"⟩ "U" ⟨[("S", ⟨0, none⟩)], [("S", ⟨some "u", some "k", some "o"⟩)], 1⟩
        ⟨⟨none, none, none, none⟩, true⟩).state.sessionCredentials.keys =
        (⟨[("S", ⟨0, none⟩)], [("S", ⟨some "u", some "k", some "o"⟩)], 1⟩ : WorkerState).sessionCredentials.keys ++ ["U"]) :=
  C6_amended ⟨some "u", some "k", some "o"⟩ "U"
    ⟨[("S", ⟨0, none⟩)], [("S", ⟨some "u", some "k", some "o"⟩)], 1⟩
    ⟨⟨none, none, none, none⟩, true⟩ (by decide) (by decide)

/-- Claim C7: a throw from a tool handler body is caught by the
registered try/catch wrapper and turned into the structured result with a
single text item reading Error: followed by the message and isError true;
in particular this holds for the delete_documents pipeline, and the
Worker continuation response that carries a tool result always has
transport status 200, so no tool-level error surfaces as a transport
failure. -/
theorem C7_tool_errors_wrapped (msg : String) (body : Except String String)
    (hthrow : body = .error msg)
    (env : Env) (uuid : String) (st : WorkerState) (req : WorkerRequest)
    (s : String) (t : Transport)
    (hs : req.headers.mcpSessionId = some s) (hsne : ¬(s = ""))
    (hv : credentialsValid (resolveCredentials req.headers env) = true)
    (hreg : st.transports.get? s = some t) :
    registeredToolWrapper body = ⟨[⟨"text", "Error: " ++ msg⟩], true⟩ ∧
    (registeredToolWrapper body).isError = true ∧
    (∀ (db : Db) (a : IdsArg) (e : String), (deleteDocuments db a).1 = .error e →
      (deleteDocumentsToolCall db a).1 = ⟨[⟨"text", "Error: " ++ e⟩], true⟩ ∧
      (deleteDocumentsToolCall db a).1.isError = true) ∧
    (handleMcpRequest env uuid st req).response.status = 200 := by
  subst hthrow
  refine ⟨rfl, rfl, ?_, ?_⟩
  · intro db a e he
    simp [deleteDocumentsToolCall, he, registeredToolWrapper, Except.map]
  · rw [handleMcp_continuation env uuid st req s t hs hsne hv hreg]

theorem C7_tool_errors_wrapped_witness :
    registeredToolWrapper (.error "boom") = ⟨[⟨"text", "Error: boom"⟩], true⟩ ∧
    (registeredToolWrapper (.error "boom")).isError = true ∧
    (∀ (db : Db) (a : IdsArg) (e : String), (deleteDocuments db a).1 = .error e →
      (deleteDocumentsToolCall db a).1 = ⟨[⟨"text", "Error: " ++ e⟩], true⟩ ∧
      (deleteDocumentsToolCall db a).1.isError = true) ∧
    (handleMcpRequest ⟨some "u", some "k", some "o"⟩ "U" ⟨[("S", ⟨7, none⟩)], [], 8⟩
      ⟨⟨some "S", none, none, none⟩, false⟩).response.status = 200 :=
  C7_tool_errors_wrapped "boom" (.error "boom") rfl
    ⟨some "u", some "k", some "o"⟩ "U" ⟨[("S", ⟨7, none⟩)], [], 8⟩
    ⟨⟨some "S", none, none, none⟩, false⟩ "S" ⟨7, none⟩
    rfl (by decide) (by decide) (by decide)

/-- Claim C8: delete_documents called with a missing, non-array or empty
document_ids argument throws the validation message before touching the
store, the wrapper surfaces it as a structured tool error with isError
true, and the store is unchanged: no document (and no storage object) is
deleted. -/
theorem C8_delete_documents_validation (db : Db) (a : IdsArg)
    (h : a = .undef ∨ a = .nonArray ∨ a = .arr []) :
    (deleteDocuments db a).1 = .error "document_ids must be a non-empty array" ∧
    (deleteDocuments db a).2 = db ∧
    (deleteDocumentsToolCall db a).1 =
      ⟨[⟨"text", "Error: document_ids must be a non-empty array"⟩], true⟩ ∧
    (deleteDocumentsToolCall db a).1.isError = true ∧
    (deleteDocumentsToolCall db a).2 = db ∧
    (deleteDocumentsToolCall db a).2.documents = db.documents := by
  rcases h with h | h | h <;> subst h <;>
    simp [deleteDocuments, deleteDocumentsToolCall, registeredToolWrapper, Except.map,
      List.isEmpty]

theorem C8_delete_documents_validation_witness :
    (deleteDocuments ⟨[⟨"1", "a.txt", "c", "text", none⟩], []⟩ (.arr [])).1 =
      .error "document_ids must be a non-empty array" ∧
    (deleteDocuments ⟨[⟨"1", "a.txt", "c", "text", none⟩], []⟩ (.arr [])).2 =
      ⟨[⟨"1", "a.txt", "c", "text", none⟩], []⟩ ∧
    (deleteDocumentsToolCall ⟨[⟨"1", "a.txt", "c", "text", none⟩], []⟩ (.arr [])).1 =
      ⟨[⟨"text", "Error: document_ids must be a non-empty array"⟩], true⟩ ∧
    (deleteDocumentsToolCall ⟨[⟨"1", "a.txt", "c", "text", none⟩], []⟩ (.arr [])).1.isError = true ∧
    (deleteDocumentsToolCall ⟨[⟨"1", "a.txt", "c", "text", none⟩], []⟩ (.arr [])).2 =
      ⟨[⟨"1", "a.txt", "c", "text", none⟩], []⟩ ∧
    (deleteDocumentsToolCall ⟨[⟨"1", "a.txt", "c", "text", none⟩], []⟩ (.arr [])).2.documents =
      [⟨"1", "a.txt", "c", "text", none⟩] :=
  C8_delete_documents_validation ⟨[⟨"1", "a.txt", "c", "text", none⟩], []⟩ (.arr [])
    (Or.inr (Or.inr rfl))

/-- Claim C9, counterexample: calling get_document with BOTH filename and
id supplied is not an argument-validation error: the source silently
prefers filename (it returns the document matching the filename, ignoring
the conflicting id); delete_document with both silently prefers id. -/
theorem C9_counterexample :
    getDocument ⟨[⟨"1", "b.txt", "cb", "text", none⟩, ⟨"2", "a.txt", "ca", "text", none⟩], []⟩
      (some "a.txt") (some "1") =
      .success ⟨"2", "a.txt", "ca", "text", none⟩ ∧
    (deleteDocument ⟨[⟨"1", "b.txt", "cb", "text", none⟩, ⟨"2", "a.txt", "ca", "text", none⟩], []⟩
      (some "1") (some "a.txt")).1 = .ok ⟨"1", "b.txt"⟩ :=
  ⟨rfl, rfl⟩

/-- Claim C9, amended: supplying neither identifying argument is indeed a
validation error for both get_document and delete_document (and deletes
nothing), but supplying both is silently resolved by precedence rather
than rejected: getDocument uses filename and ignores id, deleteDocument
uses id and ignores filename. -/
theorem C9_amended (db : Db) (f i : JsStr) :
    (truthy f = false → truthy i = false →
      getDocument db f i = .failure "Either filename or id must be provided") ∧
    (truthy f = false → truthy i = false →
      (deleteDocument db i f).1 = .error "Either id or filename must be provided" ∧
      (deleteDocument db i f).2 = db) ∧
    (truthy f = true → getDocument db f i = getDocument db f none) ∧
    (truthy i = true → deleteDocument db i f = deleteDocument db i none) := by
  refine ⟨?_, ?_, ?_, ?_⟩
  · intro hf hi
    simp [getDocument, hf, hi]
  · intro hf hi
    simp [deleteDocument, hf, hi]
  · intro hf
    simp [getDocument, hf]
  · intro hi
    simp [deleteDocument, hi]

theorem C9_amended_witness :
    (getDocument ⟨[⟨"1", "b.txt", "cb", "text", none⟩], []⟩ none none =
      .failure "Either filename or id must be provided") ∧
    ((deleteDocument ⟨[⟨"1", "b.txt", "cb", "text", none⟩], []⟩ none none).1 =
      .error "Either id or filename must be provided" ∧
     (deleteDocument ⟨[⟨"1", "b.txt", "cb", "text", none⟩], []⟩ none none).2 =
      ⟨[⟨"1", "b.txt", "cb", "text", none⟩], []⟩) ∧
    (getDocument ⟨[⟨"1", "b.txt", "cb", "text", none⟩], []⟩ (some "b.txt") (some "zzz") =
      getDocument ⟨[⟨"1", "b.txt", "cb", "text", none⟩], []⟩ (some "b.txt") none) ∧
    (deleteDocument ⟨[⟨"1", "b.txt", "cb", "text", none⟩], []⟩ (some "1") (some "zzz") =
      deleteDocument ⟨[⟨"1", "b.txt", "cb", "text", none⟩], []⟩ (some "1") none) :=
  ⟨(C9_amended ⟨[⟨"1", "b.txt", "cb", "text", none⟩], []⟩ none none).1 (by decide) (by decide),
   (C9_amended ⟨[⟨"1", "b.txt", "cb", "text", none⟩], []⟩ none none).2.1 (by decide) (by decide),
   (C9_amended ⟨[⟨"1", "b.txt", "cb", "text", none⟩], []⟩ (some "b.txt") (some "zzz")).2.2.1 (by decide),
   (C9_amended ⟨[⟨"1", "b.txt", "cb", "text", none⟩], []⟩ (some "zzz") (some "1")).2.2.2 (by decide)⟩

/-- Claim C10: a Worker request carrying a session id that is NOT in the
transports map is rejected with 400 and never reaches a transport, yet it
has already written the request's resolved credential triple into the
sessionCredentials map under that unknown id before the rejection; when
the id was previously absent the registry state visibly changes, so the
failed request is not atomic with respect to the credential registry. -/
theorem C10_ghost_session_mutation (env : Env) (uuid : String) (st : WorkerState)
    (req : WorkerRequest) (s : String)
    (hs : req.headers.mcpSessionId = some s) (hsne : ¬(s = ""))
    (hreg : st.transports.get? s = none)
    (hv : credentialsValid (resolveCredentials req.headers env) = true) :
    (handleMcpRequest env uuid st req).response.status = 400 ∧
    (handleMcpRequest env uuid st req).response.body = .invalidRequest ∧
    (handleMcpRequest env uuid st req).dispatched = none ∧
    (handleMcpRequest env uuid st req).state.transports = st.transports ∧
    (handleMcpRequest env uuid st req).state.sessionCredentials =
      st.sessionCredentials.set s (resolveCredentials req.headers env) ∧
    (handleMcpRequest env uuid st req).state.sessionCredentials.get? s =
      some (resolveCredentials req.headers env) ∧
    (st.sessionCredentials.get? s = none →
      ¬((handleMcpRequest env uuid st req).state.sessionCredentials = st.sessionCredentials)) := by
  rw [handleMcp_unknown_session env uuid st req s hs hsne hv hreg]
  refine ⟨rfl, rfl, rfl, rfl, rfl, JsMap.get?_set_self st.sessionCredentials s _, ?_⟩
  intro habsent heq
  have hset : (st.sessionCredentials.set s (resolveCredentials req.headers env)).get? s =
      some (resolveCredentials req.headers env) :=
    JsMap.get?_set_self st.sessionCredentials s _
  have heq2 : (st.sessionCredentials.set s (resolveCredentials req.headers env)).get? s =
      st.sessionCredentials.get? s := by
    exact congrArg (fun m => JsMap.get? m s) heq
  rw [hset, habsent] at heq2
  exact Option.noConfusion heq2

theorem C10_ghost_session_mutation_witness :
    (handleMcpRequest ⟨some "u", some "k", some "o"⟩ "U" ⟨[], [], 0⟩
      ⟨⟨some "ghost", none, none, none⟩, false⟩).response.status = 400 ∧
    (handleMcpRequest ⟨some "u", some "k", some "o"⟩ "U" ⟨[], [], 0⟩
      ⟨⟨some "ghost", none, none, none⟩, false⟩).response.body = .invalidRequest ∧
    (handleMcpRequest ⟨some "u", some "k", some "o"⟩ "U" ⟨[], [], 0⟩
      ⟨⟨some "ghost", none, none, none⟩, false⟩).dispatched = none ∧
    (handleMcpRequest ⟨some "u", some "k", some "o"⟩ "U" ⟨[], [], 0⟩
      ⟨⟨some "ghost", none, none, none⟩, false⟩).state.transports =
      (⟨[], [], 0⟩ : WorkerState).transports ∧
    (handleMcpRequest ⟨some "u", some "k", some "o"⟩ "U" ⟨[], [], 0⟩
      ⟨⟨some "ghost", none, none, none⟩, false⟩).state.sessionCredentials =
      JsMap.set [] "ghost" (resolveCredentials ⟨some "ghost", none, none, none⟩
        ⟨some "u", some "k", some "o"⟩) ∧
    (handleMcpRequest ⟨some "u", some "k", some "o"⟩ "U" ⟨[], [], 0⟩
      ⟨⟨some "ghost", none, none, none⟩, false⟩).state.sessionCredentials.get? "ghost" =
      some (resolveCredentials ⟨some "ghost", none, none, none⟩ ⟨some "u", some "k", some "o"⟩) ∧
    ((⟨[], [], 0⟩ : WorkerState).sessionCredentials.get? "ghost" = none →
      ¬((handleMcpRequest ⟨some "u", some "k", some "o"⟩ "U" ⟨[], [], 0⟩
        ⟨⟨some "ghost", none, none, none⟩, false⟩).state.sessionCredentials =
        (⟨[], [], 0⟩ : WorkerState).sessionCredentials)) :=
  C10_ghost_session_mutation ⟨some "u", some "k", some "o"⟩ "U" ⟨[], [], 0⟩
    ⟨⟨some "ghost", none, none, none⟩, false⟩ "ghost"
    rfl (by decide) (by decide) (by decide)

end MCPKB
